import Mathlib

/-!
Verification of the session & interaction orchestration engine of the
X-Automation repository.  JavaScript strings are modelled as lists of
characters; every fallible external step (navigation, selector waits,
clicks, store lookups, the text-generation call) is modelled as an
`Except`/`Option`/`Bool` outcome supplied by the environment, and each
orchestration function is a pure Lean function over those outcomes,
translated clause by clause from the source.
-/

set_option maxRecDepth 10000

namespace XAuto

/-- JavaScript strings, modelled as lists of characters. -/
abbrev Str := List Char

/-- Whitespace characters recognised by the JS regex class \s and by
String.prototype.trim (the common ASCII ones suffice for this model). -/
def isJsSpace (c : Char) : Bool :=
  c = ' ' || c = '\t' || c = '\n' || c = '\r' || c = '\x0b' || c = '\x0c'

/-- Model of String.prototype.trim: drop whitespace at both ends. -/
def jsTrim (s : Str) : Str :=
  ((s.dropWhile isJsSpace).reverse.dropWhile isJsSpace).reverse

/-- Quote characters removed by the regex in generatePostWithOpenRouter. -/
def isQuoteChar (c : Char) : Bool :=
  c = '"' || c = '\''

/-- Drop one leading quote character, when present. -/
def dropLeadQuote : Str → Str
  | [] => []
  | c :: rest => if isQuoteChar c then rest else c :: rest

/-- Model of content.replace applied with the pattern anchored at both ends
and the global flag in generatePostWithOpenRouter: remove at most one leading
and at most one trailing quote character. -/
def stripOuterQuotes (s : Str) : Str :=
  (dropLeadQuote (dropLeadQuote s).reverse).reverse

/-- The three-character ellipsis appended on hard truncation. -/
def ellipsis : Str := ['.', '.', '.']

/-- Model of the length-enforcement step of generatePostWithOpenRouter
(src/unnamed/part_000 lines 879-893): the raw model response is trimmed,
one layer of outer quotes is stripped, and if the result still exceeds 280
characters it is hard-truncated to its first 277 characters plus a
three-character ellipsis. -/
def generatePostText (rawContent : Str) : Str :=
  let content := stripOuterQuotes (jsTrim rawContent)
  if 280 < content.length then content.take 277 ++ ellipsis else content

/-- Claim C3: the content generator never returns text longer than 280
characters, and whenever the quote-stripped raw output exceeds 280
characters the returned text is exactly its first 277 characters followed
by a 3-character ellipsis. -/
theorem c3_generate_length_cap (raw : Str) :
    (generatePostText raw).length ≤ 280 ∧
      (280 < (stripOuterQuotes (jsTrim raw)).length →
        generatePostText raw = (stripOuterQuotes (jsTrim raw)).take 277 ++ ellipsis) := by
  unfold generatePostText
  constructor
  · by_cases h : 280 < (stripOuterQuotes (jsTrim raw)).length
    · simp only [if_pos h, List.length_append, List.length_take]
      have : min 277 (stripOuterQuotes (jsTrim raw)).length = 277 :=
        Nat.min_eq_left (by omega)
      simp [ellipsis, this]
    · simp only [if_neg h]
      omega
  · intro h
    simp [if_pos h]

/-- Witness for C3 at a concrete 281-character raw response. -/
theorem c3_generate_length_cap_witness :
    280 < (stripOuterQuotes (jsTrim (List.replicate 281 'a'))).length ∧
      generatePostText (List.replicate 281 'a') =
        (stripOuterQuotes (jsTrim (List.replicate 281 'a'))).take 277 ++ ellipsis :=
  ⟨by decide, (c3_generate_length_cap (List.replicate 281 'a')).2 (by decide)⟩

/-- Lowercasing of a JS string, modelling String.prototype.toLowerCase. -/
def toLowerStr (s : Str) : Str := s.map Char.toLower

/-- Model of first.replace applied with the whitespace class and the global
flag at the top of compareTwoStrings: remove every whitespace character. -/
def removeJsSpaces (s : Str) : Str := s.filter (fun c => !isJsSpace c)

/-- Adjacent character pairs of a string, as built by the bigram loop of
compareTwoStrings in the string-similarity library. -/
def bigrams : Str → List (Char × Char)
  | a :: b :: rest => (a, b) :: bigrams (b :: rest)
  | _ => []

/-- Multiset-intersection size of two bigram lists, translated from the
second loop of compareTwoStrings: each bigram of the second string consumes
at most one matching occurrence from the first string's bag. -/
def interCount : List (Char × Char) → List (Char × Char) → Nat
  | _, [] => 0
  | bag, x :: rest =>
    if x ∈ bag then interCount (bag.erase x) rest + 1 else interCount bag rest

/-- Model of compareTwoStrings from the string-similarity npm package
(the similarity metric called by checkContentDiversity): Sorensen-Dice
coefficient on character bigrams after whitespace removal, with the two
early returns for equal inputs and for inputs shorter than two characters. -/
def compareTwoStrings (first second : Str) : ℚ :=
  let f := removeJsSpaces first
  let s := removeJsSpaces second
  if f = s then 1
  else if f.length < 2 ∨ s.length < 2 then 0
  else (2 * (interCount (bigrams f) (bigrams s) : ℚ)) /
        ((f.length : ℚ) + (s.length : ℚ) - 2)

/-- CONFIG.automation.similarityThreshold. -/
def similarityThreshold : ℚ := 7 / 10

/-- Model of checkContentDiversity (src/unnamed/part_000 lines 317-345).
The database query for the successful posts of the last 24 hours is an
environment outcome: an exception, or the fetched list of post texts.
An exception is caught and the guard returns true (fails open); an empty
history returns true; otherwise the candidate is rejected exactly when some
fetched post is more than 70 percent similar, case-insensitively. -/
def checkContentDiversity (fetched : Except Unit (List Str)) (newPost : Str) : Bool :=
  match fetched with
  | .error _ => true
  | .ok recentPosts =>
    if recentPosts.length = 0 then true
    else if recentPosts.any (fun post =>
        decide (similarityThreshold <
          compareTwoStrings (toLowerStr post) (toLowerStr newPost))) then false
    else true

/-- The similarity metric gives 1 on identical inputs, via its first early
return. -/
theorem compareTwoStrings_self (s : Str) : compareTwoStrings s s = 1 := by
  simp [compareTwoStrings]

/-- Claim C4: the diversity guard returns true on an empty history, returns
false when some fetched entry exceeds the 0.7 case-insensitive similarity
threshold (in particular when the candidate is identical to a logged entry),
and fails open --- returns true --- when the history lookup raises. -/
theorem c4_diversity_guard (p : Str) (l : List Str) :
    checkContentDiversity (Except.ok []) p = true ∧
    ((∃ e ∈ l, similarityThreshold <
        compareTwoStrings (toLowerStr e) (toLowerStr p)) →
      checkContentDiversity (Except.ok l) p = false) ∧
    (p ∈ l → checkContentDiversity (Except.ok l) p = false) ∧
    checkContentDiversity (Except.error ()) p = true := by
  have key : ∀ (l : List Str),
      (∃ e ∈ l, similarityThreshold <
        compareTwoStrings (toLowerStr e) (toLowerStr p)) →
      checkContentDiversity (Except.ok l) p = false := by
    rintro l ⟨e, he, hsim⟩
    have hne : ¬ l.length = 0 := by
      cases l with
      | nil => cases he
      | cons a t => simp
    have hany : l.any (fun post =>
        decide (similarityThreshold <
          compareTwoStrings (toLowerStr post) (toLowerStr p))) = true :=
      List.any_eq_true.mpr ⟨e, he, decide_eq_true hsim⟩
    simp [checkContentDiversity, hne, hany]
  refine ⟨rfl, key l, ?_, rfl⟩
  intro hp
  exact key l ⟨p, hp, by
    rw [compareTwoStrings_self]
    norm_num [similarityThreshold]⟩

/-- Witness for C4: a candidate identical to the single logged entry is
rejected. -/
theorem c4_diversity_guard_witness :
    ('a' :: 'b' :: []) ∈ [['a', 'b']] ∧
      checkContentDiversity (Except.ok [['a', 'b']]) ['a', 'b'] = false :=
  ⟨by decide, (c4_diversity_guard ['a', 'b'] [['a', 'b']]).2.2.1 (by decide)⟩

/-- Outcome of one invocation of the underlying submit operation inside the
retry orchestrator: a boolean return, or a thrown exception. -/
inductive SubmitOutcome where
  | ret (success : Bool)
  | exn
deriving DecidableEq

/-- A terminal log entry written by the retry orchestrator. -/
inductive TerminalLog where
  | successEntry (attempt : Nat)
  | failureEntry
deriving DecidableEq

/-- Result of a run of the retry orchestrator: the returned boolean, the
terminal log entries written, and how many times submit was invoked. -/
structure RetryResult where
  posted : Bool
  logs : List TerminalLog
  submitCalls : Nat
deriving DecidableEq

/-- Loop of postTweetWithRetry (src/unnamed/part_000 lines 1130-1173),
translated attempt by attempt; the fuel argument realises the bound
attempt <= maxRetries of the for loop.  A true return logs a success entry
and stops; a thrown exception on the final attempt logs a failure entry and
stops; a false return or a non-final exception moves to the next attempt;
leaving the loop returns false with no further logging. -/
def retryFrom (outcomes : Nat → SubmitOutcome) (maxRetries : Nat) :
    Nat → Nat → RetryResult
  | _, 0 => ⟨false, [], 0⟩
  | attempt, fuel + 1 =>
    match outcomes attempt with
    | .ret true => ⟨true, [TerminalLog.successEntry attempt], 1⟩
    | .ret false =>
      let r := retryFrom outcomes maxRetries (attempt + 1) fuel
      ⟨r.posted, r.logs, r.submitCalls + 1⟩
    | .exn =>
      if attempt = maxRetries then ⟨false, [TerminalLog.failureEntry], 1⟩
      else
        let r := retryFrom outcomes maxRetries (attempt + 1) fuel
        ⟨r.posted, r.logs, r.submitCalls + 1⟩

/-- Model of postTweetWithRetry: run the attempt loop from attempt 1, with
outcome of attempt n given by the environment function. -/
def postTweetWithRetry (outcomes : Nat → SubmitOutcome) (maxRetries : Nat) :
    RetryResult :=
  retryFrom outcomes maxRetries 1 maxRetries

/-- Claim C1, evaluated at the failing input: with maxRetries 1 and the
single submit attempt returning false without throwing, the orchestrator
makes one submit call, returns false, and writes zero terminal log entries
--- contradicting the claimed "exactly one terminal log entry", because
logFailedPost is reached only when the final attempt throws. -/
theorem c1_all_false_silent_drop :
    postTweetWithRetry (fun _ => SubmitOutcome.ret false) 1 =
      ⟨false, [], 1⟩ := rfl

/-- Outcome of the third, coordinate-based click strategy: it can raise, it
can click at the bounding-box center, or it can complete without clicking
because the element handle or its bounding box is null. -/
inductive CoordOutcome where
  | raises
  | clickedAtBox
  | noBox
deriving DecidableEq

/-- Environment outcomes of the three click strategies of
postTweetWithButton: the native element click and the script-injected click
either raise or click; the coordinate click has the three outcomes above. -/
structure ClickEnv where
  native : Except Unit Unit
  scriptEval : Except Unit Unit
  coord : CoordOutcome

/-- The ordered click cascade of postTweetWithButton (src/unnamed/part_000
lines 1050-1096): three guarded blocks, each entered only while clicked is
still false.  Returns the final clicked flag together with the list of
strategy indices attempted, in order. -/
def clickCascade (env : ClickEnv) : Bool × List Nat :=
  match env.native with
  | .ok _ => (true, [1])
  | .error _ =>
    match env.scriptEval with
    | .ok _ => (true, [1, 2])
    | .error _ =>
      match env.coord with
      | .clickedAtBox => (true, [1, 2, 3])
      | .noBox => (false, [1, 2, 3])
      | .raises => (false, [1, 2, 3])

/-- Environment outcomes of the fallible steps of postTweetWithButton:
the navigation to home, the compose-area selector probe (found by some
selector or not), the wait for the post button, the click strategies, and
the result of verifyTweetPosted (which catches its own exceptions and
returns a boolean). -/
structure SubmitEnv where
  gotoHome : Except Unit Unit
  textareaFound : Bool
  buttonWait : Except Unit Unit
  click : ClickEnv
  verified : Bool

/-- Model of postTweetWithButton (src/unnamed/part_000 lines 957-1125).
A raised navigation or button-wait error and a missing compose area fall to
the outer catch, which returns false; a false clicked flag after the cascade
throws and likewise returns false; after a successful click, both branches
on the verification result return true. -/
def postTweetWithButton (env : SubmitEnv) : Bool :=
  match env.gotoHome with
  | .error _ => false
  | .ok _ =>
    if env.textareaFound = false then false
    else
      match env.buttonWait with
      | .error _ => false
      | .ok _ =>
        if (clickCascade env.click).1 = false then false
        else if env.verified then true else true

/-- Environment outcomes of the fallible steps of postTweetWithEnter in
src/post.js: navigation, compose-area probe, the keyboard-shortcut press,
the fallback dispatched keyboard event, and the verification result. -/
structure EnterEnv where
  gotoHome : Except Unit Unit
  textareaFound : Bool
  shortcut : Except Unit Unit
  fallbackEvent : Except Unit Unit
  verified : Bool

/-- Model of postTweetWithEnter (src/post.js lines 478-598): the shortcut
press is tried first and its failure is caught and retried with a dispatched
keyboard event; a failure of the fallback reaches the outer catch and
returns false; after a successful submission both verification branches
return true. -/
def postTweetWithEnter (env : EnterEnv) : Bool :=
  match env.gotoHome with
  | .error _ => false
  | .ok _ =>
    if env.textareaFound = false then false
    else
      match env.shortcut with
      | .ok _ => if env.verified then true else true
      | .error _ =>
        match env.fallbackEvent with
        | .error _ => false
        | .ok _ => if env.verified then true else true

/-- Claim C2: in both submit functions, once the click step succeeds the
function returns true for every verification outcome --- a verification
failure never downgrades a click success to a false return. -/
theorem c2_verification_never_downgrades :
    (∀ (c : ClickEnv) (v : Bool), (clickCascade c).1 = true →
      postTweetWithButton ⟨Except.ok (), true, Except.ok (), c, v⟩ = true) ∧
    (∀ (sc fb : Except Unit Unit) (v : Bool),
      (sc = Except.ok () ∨ (sc = Except.error () ∧ fb = Except.ok ())) →
      postTweetWithEnter ⟨Except.ok (), true, sc, fb, v⟩ = true) := by
  constructor
  · intro c v hc
    simp [postTweetWithButton, hc]
  · rintro sc fb v (rfl | ⟨rfl, rfl⟩)
    · cases v <;> rfl
    · cases v <;> rfl

/-- Witness for C2: a failed verification after a successful native click,
and after a successful fallback keyboard event, still yields true. -/
theorem c2_verification_never_downgrades_witness :
    postTweetWithButton
      ⟨Except.ok (), true, Except.ok (),
        ⟨Except.ok (), Except.error (), CoordOutcome.raises⟩, false⟩ = true ∧
    postTweetWithEnter
      ⟨Except.ok (), true, Except.error (), Except.ok (), false⟩ = true :=
  ⟨c2_verification_never_downgrades.1
      ⟨Except.ok (), Except.error (), CoordOutcome.raises⟩ false rfl,
    c2_verification_never_downgrades.2 (Except.error ()) (Except.ok ()) false
      (Or.inr ⟨rfl, rfl⟩)⟩

/-- Claim C5: the click cascade tries exactly the three strategies in the
fixed order native, script-injected, coordinate; it stops at the first
strategy that does not raise; and if all three raise, the submit function
returns false. -/
theorem c5_click_cascade_order (c : ClickEnv) :
    (c.native = Except.ok () → (clickCascade c).2 = [1]) ∧
    (c.native = Except.error () → c.scriptEval = Except.ok () →
      (clickCascade c).2 = [1, 2]) ∧
    (c.native = Except.error () → c.scriptEval = Except.error () →
      (clickCascade c).2 = [1, 2, 3]) ∧
    (c.native = Except.error () → c.scriptEval = Except.error () →
      c.coord = CoordOutcome.raises → ∀ v : Bool,
        postTweetWithButton ⟨Except.ok (), true, Except.ok (), c, v⟩ = false) := by
  obtain ⟨n, s, k⟩ := c
  refine ⟨?_, ?_, ?_, ?_⟩
  · rintro rfl; rfl
  · rintro rfl rfl; rfl
  · rintro rfl rfl; cases k <;> rfl
  · rintro rfl rfl rfl v; rfl

/-- Witness for C5: the script-injected click succeeding after a raised
native click gives the attempt order 1, 2, and three raised strategies give
a false submit. -/
theorem c5_click_cascade_order_witness :
    (clickCascade ⟨Except.error (), Except.ok (), CoordOutcome.raises⟩).2 = [1, 2] ∧
    postTweetWithButton
      ⟨Except.ok (), true, Except.ok (),
        ⟨Except.error (), Except.error (), CoordOutcome.raises⟩, true⟩ = false :=
  ⟨(c5_click_cascade_order
      ⟨Except.error (), Except.ok (), CoordOutcome.raises⟩).2.1 rfl rfl,
    (c5_click_cascade_order
      ⟨Except.error (), Except.error (), CoordOutcome.raises⟩).2.2.2
      rfl rfl rfl true⟩

/-- Counters maintained by the scrollFeed loop of src/unnamed/part_001. -/
structure ScrollState where
  scrollAttempts : Nat
  totalLiked : Nat
  totalCommented : Nat
deriving DecidableEq

/-- Per-pass environment outcomes of the scrollFeed loop body: how many
posts likeRandomPosts reports liked on a given pass (its errors are caught
and degrade to zero), whether the comment attempt of a given pass succeeds,
and whether the OpenRouter API key is configured. -/
structure ScrollEnv where
  likedOnPass : Nat → Nat
  commentSuccessOnPass : Nat → Bool
  apiKeyConfigured : Bool

/-- One iteration of the scrollFeed loop body (src/unnamed/part_001 lines
1628-1750): increment the scroll counter, add the liked count, and on every
20th pass with an API key configured count a successful comment. -/
def scrollFeedStep (env : ScrollEnv) (s : ScrollState) : ScrollState :=
  let attempts := s.scrollAttempts + 1
  let liked := s.totalLiked + env.likedOnPass attempts
  let commented :=
    if attempts % 20 = 0 && env.apiKeyConfigured && env.commentSuccessOnPass attempts
    then s.totalCommented + 1 else s.totalCommented
  ⟨attempts, liked, commented⟩

/-- The scrollFeed loop itself.  The source loop header is the constant
while true; the cancelRequested argument models the externally exposed
cancellation signal the claim speaks of, sampled at each iteration boundary
by the hosting process --- the translated loop guard and body never consult
it.  The fuel argument is the number of passes the hosting process survives. -/
def scrollFeedRun (env : ScrollEnv) (cancelRequested : Nat → Bool) :
    Nat → ScrollState → ScrollState
  | 0, s => s
  | fuel + 1, s => scrollFeedRun env cancelRequested fuel (scrollFeedStep env s)

/-- Claim C6 counterexample: with cancellation requested at every iteration
boundary, the scrollFeed loop still performs every pass the host allows ---
three passes of fuel yield three scroll attempts, not a stop at the first
boundary --- so the loop does not check a cancellation signal between
scroll passes. -/
theorem c6_no_cancellation_check_counterexample :
    (scrollFeedRun ⟨fun _ => 0, fun _ => false, false⟩ (fun _ => true) 3
        ⟨0, 0, 0⟩).scrollAttempts = 3 ∧ (3 : Nat) ≠ 0 :=
  ⟨rfl, by decide⟩

/-- Claim C6 as amended: the scrollFeed loop is an unconditional infinite
loop; its result is independent of the cancellation signal, and it performs
exactly one pass per unit of fuel, stopping only when the hosting process
stops running it. -/
theorem c6_loop_ignores_cancellation (env : ScrollEnv)
    (c1 c2 : Nat → Bool) (fuel : Nat) (s : ScrollState) :
    scrollFeedRun env c1 fuel s = scrollFeedRun env c2 fuel s ∧
      (scrollFeedRun env c1 fuel s).scrollAttempts = s.scrollAttempts + fuel := by
  induction fuel generalizing s with
  | zero => exact ⟨rfl, rfl⟩
  | succ n ih =>
    have hstep : (scrollFeedStep env s).scrollAttempts = s.scrollAttempts + 1 := rfl
    obtain ⟨h1, h2⟩ := ih (scrollFeedStep env s)
    exact ⟨h1, by rw [scrollFeedRun, h2, hstep]; omega⟩

/-- Content produced by one generation call in the single-cycle run
controller: the post text and its source topic. -/
structure PostData where
  post : Str
  topic : Str
deriving DecidableEq

/-- Observable trace of steps 7 to 9 of main (src/unnamed/part_000 lines
1283-1332): how many generation calls were made, whether the diversity
check ran, and which post text (if any) was handed to the retry
orchestrator. -/
structure CycleTrace where
  genCalls : Nat
  diversityChecked : Bool
  submitted : Option Str
deriving DecidableEq

/-- Model of steps 7 to 9 of main in single-cycle mode.  gen1 is the result
of the first generation call, diverse the diversity guard's verdict on a
given text, gen2 the result of the one re-generation attempted inside the
diversity path.  A null first generation throws and aborts the cycle before
any diversity check; a rejected post triggers exactly one re-generation and
is kept unchanged when that re-generation returns null; the surviving post
is submitted to the retry orchestrator. -/
def runSingleCycle (gen1 : Option PostData) (diverse : Str → Bool)
    (gen2 : Option PostData) : CycleTrace :=
  match gen1 with
  | none => ⟨1, false, none⟩
  | some postData =>
    if diverse postData.post then ⟨1, true, some postData.post⟩
    else
      match gen2 with
      | none => ⟨2, true, some postData.post⟩
      | some retryPostData => ⟨2, true, some retryPostData.post⟩

/-- Claim C8: a null first generation aborts the cycle with no diversity
check and no second generation call, whatever the remaining topic pool
would have produced; and a second generation call happens only after a
successful first generation that the diversity guard rejected. -/
theorem c8_generation_failure_aborts :
    (∀ (diverse : Str → Bool) (gen2 : Option PostData),
      runSingleCycle none diverse gen2 = ⟨1, false, none⟩) ∧
    (∀ (gen1 : Option PostData) (diverse : Str → Bool) (gen2 : Option PostData),
      (runSingleCycle gen1 diverse gen2).genCalls = 2 →
      ∃ postData, gen1 = some postData ∧ diverse postData.post = false) := by
  refine ⟨fun _ _ => rfl, ?_⟩
  intro gen1 diverse gen2 h2
  match gen1 with
  | none => simp [runSingleCycle] at h2
  | some postData =>
    refine ⟨postData, rfl, ?_⟩
    by_contra hdiv
    rw [Bool.not_eq_false] at hdiv
    simp [runSingleCycle, hdiv] at h2

/-- Witness for C8: with a rejected generation and an exhausted second
attempt, the trace indeed shows two generation calls, so the second
conjunct applies with its hypothesis discharged concretely. -/
theorem c8_generation_failure_aborts_witness :
    ∃ postData, some (⟨['x'], ['t']⟩ : PostData) = some postData ∧
      (fun _ : Str => false) postData.post = false :=
  c8_generation_failure_aborts.2 (some ⟨['x'], ['t']⟩) (fun _ => false) none rfl

/-- Claim C9: when the diversity guard rejects the generated post and the
single re-generation returns null, the originally rejected post is kept
unchanged and still submitted to the retry orchestrator --- the cycle is
not aborted. -/
theorem c9_rejected_post_still_submitted (postData : PostData)
    (diverse : Str → Bool) (hrej : diverse postData.post = false) :
    runSingleCycle (some postData) diverse none =
      ⟨2, true, some postData.post⟩ := by
  simp [runSingleCycle, hrej]

/-- Witness for C9 at a concrete rejected post. -/
theorem c9_rejected_post_still_submitted_witness :
    runSingleCycle (some ⟨['x'], ['t']⟩) (fun _ => false) none =
      ⟨2, true, some ['x']⟩ :=
  c9_rejected_post_still_submitted ⟨['x'], ['t']⟩ (fun _ => false) rfl

/-- A raw browser cookie as seen by applySessionCookies and
extractAndSaveSession.  JS falsiness of a missing or empty string field is
modelled by the empty list; a possibly absent boolean by Option Bool; the
numeric expires field by Option of a rational. -/
structure RawCookie where
  name : Str
  value : Str
  domain : Str
  path : Str
  httpOnly : Option Bool
  secure : Option Bool
  sameSite : Str
  expires : Option ℚ

/-- A cookie after cleaning, with every field materialised. -/
structure CleanCookie where
  name : Str
  value : Str
  domain : Str
  path : Str
  httpOnly : Bool
  secure : Bool
  sameSite : Str
  expires : Option ℚ
deriving DecidableEq

/-- The map step of the cookie-cleaning pipeline, shared verbatim by
applySessionCookies (src/unnamed/part_000 lines 480-491 and
src/unnamed/part_001 lines 451-471) and extractAndSaveSession
(src/unnamed/part_000 lines 543-561): defaults of slash for path, false for
httpOnly and secure, Lax for sameSite, and an expires field kept only when
present --- truthy --- and strictly positive. -/
def cleanCookie (c : RawCookie) : CleanCookie :=
  ⟨c.name, c.value, c.domain,
    (if c.path.isEmpty then ['/'] else c.path),
    c.httpOnly.getD false,
    c.secure.getD false,
    (if c.sameSite.isEmpty then ['L', 'a', 'x'] else c.sameSite),
    (match c.expires with
      | some e => if 0 < e then some e else none
      | none => none)⟩

/-- The cookie-cleaning pipeline: drop every cookie with a falsy name,
value, or domain, then normalise the survivors. -/
def cleanCookies (l : List RawCookie) : List CleanCookie :=
  (l.filter (fun c => !c.name.isEmpty && !c.value.isEmpty && !c.domain.isEmpty)).map
    cleanCookie

/-- Claim C10: every cookie surviving the cleaning pipeline has non-empty
name, value and domain, comes from a source cookie of the input list, takes
the default path slash, httpOnly false, secure false and sameSite Lax when
the source field is absent, and carries an expires value only when the
source expires is present and strictly positive. -/
theorem c10_clean_cookie_invariants (l : List RawCookie) (c : CleanCookie)
    (hc : c ∈ cleanCookies l) :
    c.name ≠ [] ∧ c.value ≠ [] ∧ c.domain ≠ [] ∧
    ∃ r ∈ l, c = cleanCookie r ∧
      (r.path = [] → c.path = ['/']) ∧
      (r.httpOnly = none → c.httpOnly = false) ∧
      (r.secure = none → c.secure = false) ∧
      (r.sameSite = [] → c.sameSite = ['L', 'a', 'x']) ∧
      (∀ e, c.expires = some e → r.expires = some e ∧ 0 < e) := by
  obtain ⟨r, hr, hmap⟩ := List.mem_map.mp hc
  obtain ⟨hrl, hpred⟩ := List.mem_filter.mp hr
  have hname : ¬r.name.isEmpty := by
    rcases Bool.and_eq_true .. |>.mp hpred with ⟨h, _⟩
    rcases Bool.and_eq_true .. |>.mp h with ⟨h1, _⟩
    simpa using h1
  have hvalue : ¬r.value.isEmpty := by
    rcases Bool.and_eq_true .. |>.mp hpred with ⟨h, _⟩
    rcases Bool.and_eq_true .. |>.mp h with ⟨_, h2⟩
    simpa using h2
  have hdomain : ¬r.domain.isEmpty := by
    rcases Bool.and_eq_true .. |>.mp hpred with ⟨_, h3⟩
    simpa using h3
  subst hmap
  refine ⟨by simpa [cleanCookie, List.isEmpty_iff] using hname,
          by simpa [cleanCookie, List.isEmpty_iff] using hvalue,
          by simpa [cleanCookie, List.isEmpty_iff] using hdomain,
          r, hrl, rfl, ?_, ?_, ?_, ?_, ?_⟩
  · intro hp; simp [cleanCookie, hp]
  · intro hh; simp [cleanCookie, hh]
  · intro hs; simp [cleanCookie, hs]
  · intro hss; simp [cleanCookie, hss]
  · intro e he
    simp only [cleanCookie] at he
    match hx : r.expires with
    | none => rw [hx] at he; cases he
    | some x =>
      rw [hx] at he
      have he2 : (if 0 < x then some x else none) = some e := he
      by_cases hpos : 0 < x
      · rw [if_pos hpos] at he2
        cases he2
        exact ⟨rfl, hpos⟩
      · rw [if_neg hpos] at he2
        cases he2

/-- Witness for C10: a session cookie with a negative expires value and
absent optional fields is cleaned to the documented defaults with no
expires field, and the invariants apply to it. -/
theorem c10_clean_cookie_invariants_witness :
    (cleanCookie ⟨['a'], ['v'], ['d'], [], none, none, [], some (-1)⟩).name ≠ [] ∧
      (cleanCookie ⟨['a'], ['v'], ['d'], [], none, none, [], some (-1)⟩).value ≠ [] ∧
      (cleanCookie ⟨['a'], ['v'], ['d'], [], none, none, [], some (-1)⟩).domain ≠ [] ∧
      ∃ r ∈ [(⟨['a'], ['v'], ['d'], [], none, none, [], some (-1)⟩ : RawCookie)],
        cleanCookie ⟨['a'], ['v'], ['d'], [], none, none, [], some (-1)⟩ = cleanCookie r ∧
        (r.path = [] →
          (cleanCookie ⟨['a'], ['v'], ['d'], [], none, none, [], some (-1)⟩).path = ['/']) ∧
        (r.httpOnly = none →
          (cleanCookie ⟨['a'], ['v'], ['d'], [], none, none, [], some (-1)⟩).httpOnly = false) ∧
        (r.secure = none →
          (cleanCookie ⟨['a'], ['v'], ['d'], [], none, none, [], some (-1)⟩).secure = false) ∧
        (r.sameSite = [] →
          (cleanCookie ⟨['a'], ['v'], ['d'], [], none, none, [], some (-1)⟩).sameSite = ['L', 'a', 'x']) ∧
        (∀ e, (cleanCookie ⟨['a'], ['v'], ['d'], [], none, none, [], some (-1)⟩).expires = some e →
          r.expires = some e ∧ 0 < e) :=
  c10_clean_cookie_invariants
    [⟨['a'], ['v'], ['d'], [], none, none, [], some (-1)⟩]
    (cleanCookie ⟨['a'], ['v'], ['d'], [], none, none, [], some (-1)⟩)
    (by simp [cleanCookies])

/-- Substring test, modelling String.prototype.includes. -/
def strIncludes (hay needle : Str) : Bool :=
  hay.tails.any (fun t => needle.isPrefixOf t)

/-- A discovered trend candidate: topic, display context, volume label. -/
structure TrendCandidate where
  topic : Str
  context : Str
  tweetCount : Str
deriving DecidableEq

/-- Accumulator of the span-classification loop inside
getTrendingTopicsWithContext; empty strings model the JS falsy initial
values. -/
structure ParseState where
  trendText : Str
  context : Str
  tweetCount : Str

/-- One step of the span loop of getTrendingTopicsWithContext
(src/unnamed/part_000 lines 709-727): a fragment mentioning Trending or the
separator glyph becomes the context; a fragment mentioning posts, Tweets, K
or M becomes the volume; otherwise the first non-trivial fragment not
starting with a hash becomes the topic, later overridden by a hash fragment
once a topic is set. -/
def classifySpan (st : ParseState) (rawSpan : Str) : ParseState :=
  let text := jsTrim rawSpan
  if strIncludes text ("Trending".toList) || strIncludes text ("·".toList) then
    ⟨st.trendText, text, st.tweetCount⟩
  else if strIncludes text ("posts".toList) || strIncludes text ("Tweets".toList) ||
      strIncludes text ("K".toList) || strIncludes text ("M".toList) then
    ⟨st.trendText, st.context, text⟩
  else if st.trendText.isEmpty && decide (2 < text.length) &&
      !(['#'].isPrefixOf text) then
    ⟨text, st.context, st.tweetCount⟩
  else if !st.trendText.isEmpty && (['#'].isPrefixOf text) then
    ⟨text, st.context, st.tweetCount⟩
  else st

/-- Parsing of one trend element from its span texts: run the span loop and
keep the result when a topic longer than two characters was found, filling
the documented context and volume defaults. -/
def parseTrendElement (spans : List Str) : Option TrendCandidate :=
  let st := spans.foldl classifySpan ⟨[], [], []⟩
  if !st.trendText.isEmpty && decide (2 < st.trendText.length) then
    some ⟨st.trendText,
      (if st.context.isEmpty then "Trending now".toList else st.context),
      (if st.tweetCount.isEmpty then "N/A".toList else st.tweetCount)⟩
  else none

/-- The topic list scraped from the rendered trend elements, before
deduplication. -/
def parsedTopics (elements : List (List Str)) : List TrendCandidate :=
  elements.filterMap parseTrendElement

/-- The deduplication key: the lowercase topic. -/
def lowerKey (t : TrendCandidate) : Str := toLowerStr t.topic

/-- The deduplication loop of getTrendingTopicsWithContext: seenTopics is
the set of lowercase topics already pushed; a candidate is kept exactly
when its key is new. -/
def dedupeAux (seen : List Str) : List TrendCandidate → List TrendCandidate
  | [] => []
  | t :: rest =>
    if lowerKey t ∈ seen then dedupeAux seen rest
    else t :: dedupeAux (lowerKey t :: seen) rest

/-- Deduplication by lowercase topic, first occurrence kept. -/
def uniqueByLowerTopic (topics : List TrendCandidate) : List TrendCandidate :=
  dedupeAux [] topics

/-- Model of getTrendingTopicsWithContext (src/unnamed/part_000 lines
684-761): the scraping of the rendered trend elements is an environment
outcome; any scraping error is caught and yields the empty list, otherwise
the parsed topics are deduplicated by lowercase topic and capped at 15. -/
def getTrendingTopicsWithContext (scraped : Except Unit (List (List Str))) :
    List TrendCandidate :=
  match scraped with
  | .error _ => []
  | .ok elements => (uniqueByLowerTopic (parsedTopics elements)).take 15

/-- The deduplication loop only drops elements, preserving order. -/
theorem dedupeAux_sublist (seen : List Str) (l : List TrendCandidate) :
    (dedupeAux seen l).Sublist l := by
  induction l generalizing seen with
  | nil => exact List.Sublist.refl []
  | cons t rest ih =>
    rw [dedupeAux]
    by_cases h : lowerKey t ∈ seen
    · rw [if_pos h]; exact (ih seen).cons t
    · rw [if_neg h]; exact (ih (lowerKey t :: seen)).cons₂ t

/-- Every candidate kept by the deduplication loop has a key outside seen
and is the first occurrence of its key in the remaining input. -/
theorem mem_dedupeAux {seen : List Str} {l : List TrendCandidate}
    {u : TrendCandidate} (hu : u ∈ dedupeAux seen l) :
    lowerKey u ∉ seen ∧
      ∃ l₁ l₂, l = l₁ ++ u :: l₂ ∧ ∀ t ∈ l₁, lowerKey t ≠ lowerKey u := by
  induction l generalizing seen with
  | nil => cases hu
  | cons t rest ih =>
    rw [dedupeAux] at hu
    by_cases h : lowerKey t ∈ seen
    · rw [if_pos h] at hu
      obtain ⟨hnot, l₁, l₂, heq, hall⟩ := ih hu
      refine ⟨hnot, t :: l₁, l₂, by rw [heq]; rfl, ?_⟩
      intro s hs
      rcases List.mem_cons.mp hs with rfl | hs
      · intro hk; exact hnot (hk ▸ h)
      · exact hall s hs
    · rw [if_neg h] at hu
      rcases List.mem_cons.mp hu with rfl | hu
      · exact ⟨h, [], rest, rfl, by simp⟩
      · obtain ⟨hnot, l₁, l₂, heq, hall⟩ := ih hu
        have hne : lowerKey u ≠ lowerKey t := fun hk =>
          hnot (by rw [hk]; exact List.mem_cons_self _ _)
        refine ⟨fun hs => hnot (List.mem_cons_of_mem _ hs),
                t :: l₁, l₂, by rw [heq]; rfl, ?_⟩
        intro s hs
        rcases List.mem_cons.mp hs with rfl | hs
        · exact fun hk => hne hk.symm
        · exact hall s hs

/-- The keys of the deduplicated list are pairwise distinct. -/
theorem dedupeAux_nodup_keys (seen : List Str) (l : List TrendCandidate) :
    ((dedupeAux seen l).map lowerKey).Nodup := by
  induction l generalizing seen with
  | nil => exact List.nodup_nil
  | cons t rest ih =>
    rw [dedupeAux]
    by_cases h : lowerKey t ∈ seen
    · rw [if_pos h]; exact ih seen
    · rw [if_neg h]
      rw [List.map_cons, List.nodup_cons]
      refine ⟨?_, ih (lowerKey t :: seen)⟩
      intro hmem
      obtain ⟨u, hu, hku⟩ := List.mem_map.mp hmem
      exact (mem_dedupeAux hu).1 (hku ▸ List.mem_cons_self _ _)

/-- Claim C7: trend discovery returns at most 15 candidates, with pairwise
distinct lowercase topics, each candidate drawn from the parsed list in
order as the first occurrence of its lowercase topic, and returns the empty
list --- not an error --- when scraping raises. -/
theorem c7_trend_discovery (elements : List (List Str)) :
    (getTrendingTopicsWithContext (Except.ok elements)).length ≤ 15 ∧
    ((getTrendingTopicsWithContext (Except.ok elements)).map lowerKey).Nodup ∧
    (getTrendingTopicsWithContext (Except.ok elements)).Sublist
      (parsedTopics elements) ∧
    (∀ u ∈ getTrendingTopicsWithContext (Except.ok elements),
      ∃ l₁ l₂, parsedTopics elements = l₁ ++ u :: l₂ ∧
        ∀ t ∈ l₁, lowerKey t ≠ lowerKey u) ∧
    getTrendingTopicsWithContext (Except.error ()) = [] := by
  refine ⟨?_, ?_, ?_, ?_, rfl⟩
  · simp [getTrendingTopicsWithContext]
  · exact ((dedupeAux_nodup_keys [] (parsedTopics elements)).sublist
      ((List.take_sublist 15 _).map lowerKey))
  · exact (List.take_sublist 15 _).trans (dedupeAux_sublist [] _)
  · intro u hu
    have hu2 : u ∈ uniqueByLowerTopic (parsedTopics elements) :=
      (List.take_sublist 15 _).subset hu
    exact (mem_dedupeAux hu2).2

/-- Witness for C7 on one concrete rendered trend element. -/
theorem c7_trend_discovery_witness :
    ∃ l₁ l₂, parsedTopics [["Bitcoin".toList]] =
        l₁ ++ (⟨"Bitcoin".toList, "Trending now".toList, "N/A".toList⟩ :
          TrendCandidate) :: l₂ ∧
      ∀ t ∈ l₁, lowerKey t ≠
        lowerKey ⟨"Bitcoin".toList, "Trending now".toList, "N/A".toList⟩ :=
  (c7_trend_discovery [["Bitcoin".toList]]).2.2.2.1 _ (by decide)

end XAuto
